import Mathlib

/-!
# HelloWorldPublisher: a shallow embedding of `src/HelloWorldPublisher.cpp`

The publisher client is embedded as pure state-passing functions.

* A C++ pointer is an `Option Nat`: `none` is `nullptr`, `some h` is a valid handle.
* Calling a member function through a null pointer is the fault `Fault.null_dereference`.
* Everything the program does to the outside (middleware calls, `std::cout` lines,
  sleeping) is recorded, in program order, in a list of `Event`s.
* What the outside does to the program is an input: the handles the middleware returns
  from its creation calls (`Middleware`), and, for every iteration of the send loop, the
  match notifications delivered before it and the code `write` returns (`Tick`).
* `size_t` is 64 bits wide (LP64), `uint32_t` is 32 bits wide; both wrap.
* Loops that the C++ does not bound take their bound from the input: the payload loop takes
  fuel, the send loop takes the list of ticks and reports `Fault.out_of_fuel` when the list
  ends before the loop does.
-/

namespace HelloWorldPublisher

/-- A C++ pointer: `none` is `nullptr`. -/
abbrev Ptr := Option Nat

/-- Number of values of a `size_t` (64-bit). -/
def SIZE_T_MOD : Nat := 2 ^ 64

/-- Number of values of a `uint32_t`. -/
def UINT32_MOD : Nat := 2 ^ 32

/-- The word pushed into the payload by `init` (line 125). -/
def SENTINEL : Nat := 0xdeadbeef

/-- The value of `ReturnCode_t::RETCODE_OK` in the middleware's headers. -/
def RETCODE_OK : Nat := 0

/-- The value of `ReturnCode_t::RETCODE_PRECONDITION_NOT_MET` in the middleware's headers. -/
def RETCODE_PRECONDITION_NOT_MET : Nat := 4

/-- Modelled from the spec: the generated message type `HelloWorld` (declared in
`HelloWorldPubSubTypes.h`, which is not among the sources). The spec's data model gives it an
unsigned counter `index`, a textual `message` and a `data` sequence of fixed-width unsigned
words; the source uses exactly these three accessors. The counter is taken to be 32 bits wide. -/
structure HelloWorld where
  index : Nat
  message : String
  data : List Nat
  deriving DecidableEq, Repr

/-- The fields of `PublicationMatchedStatus` that the listener reads. -/
structure PublicationMatchedStatus where
  total_count : Int
  current_count_change : Int
  deriving DecidableEq, Repr

/-- The nested class `PubListener` (lines 49-85). -/
structure PubListener where
  matched_ : Int
  deriving DecidableEq, Repr

/-- The lines written to `std::cout`; numbers are kept as data, not formatted. -/
inductive Cout where
  | send (data : List Nat)
  | publisher_matched
  | publisher_unmatched
  | not_a_valid_value (change : Int)
  | creating_reliability
  | creating_datawriter
  | datawriter_not_created
  | datawriter_created
  | write_succeded_ok
  | write_failed_precondition_not_met
  | write_failed_other (code : Nat)
  | message_sent (message : String) (index : Nat)
  deriving DecidableEq, Repr

/-- What the program does to the outside. The first argument of a member call is the object
it is called on; a pointer passed as an argument may be null. `write` also records the code
the middleware returned. -/
inductive Event where
  | create_participant (domain : Nat) (name : String)
  | register_type (participant : Nat)
  | create_topic (participant : Nat) (name : String) (type_name : String)
  | create_publisher (participant : Nat)
  | create_datawriter (publisher : Nat) (topic : Ptr)
  | write (writer : Nat) (sample : HelloWorld) (ret_write : Nat)
  | delete_datawriter (publisher : Nat) (writer : Ptr)
  | delete_publisher (participant : Nat) (publisher : Ptr)
  | delete_topic (participant : Nat) (topic : Ptr)
  | delete_participant (participant : Ptr)
  | sleep_for (milliseconds : Nat)
  | cout (line : Cout)
  deriving DecidableEq, Repr

/-- Ways an execution fails to produce a result. -/
inductive Fault where
  | null_dereference
  | out_of_fuel
  deriving DecidableEq, Repr

/-- The handles the middleware returns from its four creation calls, when they are made. -/
structure Middleware where
  create_participant : Ptr
  create_topic : Ptr
  create_publisher : Ptr
  create_datawriter : Ptr
  deriving DecidableEq, Repr

/-- One iteration of the send loop as seen from outside: the match notifications the
middleware delivers before `publish` reads `matched_`, and the code `write` returns if it is
called. -/
structure Tick where
  callbacks : List PublicationMatchedStatus
  ret_write : Nat
  deriving DecidableEq, Repr

/-- The class `HelloWorldPublisher` (lines 31-85); `type_` is a constant and is left out. -/
structure State where
  hello_ : HelloWorld
  participant_ : Ptr
  publisher_ : Ptr
  topic_ : Ptr
  writer_ : Ptr
  data_size : Nat
  listener_ : PubListener
  deriving DecidableEq, Repr

/-- The constructor (lines 89-96) with the member initialisers of lines 47 and 54. -/
def construct : State :=
  { hello_ := { index := 0, message := "", data := [] }
    participant_ := none
    publisher_ := none
    topic_ := none
    writer_ := none
    data_size := 1024
    listener_ := { matched_ := 0 } }

/-- `set_size` (lines 240-243): the argument is a `uint32_t`. -/
def set_size (size : Nat) (s : State) : State :=
  { s with data_size := size % UINT32_MOD }

/-- `PubListener::on_publication_matched` (lines 62-81). -/
def on_publication_matched (info : PublicationMatchedStatus) (l : PubListener) :
    PubListener × List Event :=
  if info.current_count_change = 1 then
    ({ l with matched_ := info.total_count }, [Event.cout Cout.publisher_matched])
  else if info.current_count_change = -1 then
    ({ l with matched_ := info.total_count }, [Event.cout Cout.publisher_unmatched])
  else
    (l, [Event.cout (Cout.not_a_valid_value info.current_count_change)])

/-- The destructor (lines 98-113). -/
def destructor (s : State) : Except Fault (List Event) :=
  match (if s.writer_ ≠ none then
      (match s.publisher_ with
        | none => Except.error Fault.null_dereference
        | some p => Except.ok [Event.delete_datawriter p s.writer_])
    else Except.ok []) with
  | Except.error e => Except.error e
  | Except.ok e1 =>
    match (if s.publisher_ ≠ none then
        (match s.participant_ with
          | none => Except.error Fault.null_dereference
          | some p => Except.ok [Event.delete_publisher p s.publisher_])
      else Except.ok []) with
    | Except.error e => Except.error e
    | Except.ok e2 =>
      match (if s.topic_ ≠ none then
          (match s.participant_ with
            | none => Except.error Fault.null_dereference
            | some p => Except.ok [Event.delete_topic p s.topic_])
        else Except.ok []) with
      | Except.error e => Except.error e
      | Except.ok e3 =>
        Except.ok (e1 ++ e2 ++ e3 ++ [Event.delete_participant s.participant_])

/-- The payload loop of `init` (lines 123-126): `i` is a `size_t`, `data` the vector built so
far. One unit of fuel is spent per evaluation of the loop condition. -/
def payload_loop (size : Nat) : Nat → Nat → List Nat → Option (List Nat)
  | 0, _, _ => none
  | fuel + 1, i, data =>
    if i < size then payload_loop size fuel ((i + 4) % SIZE_T_MOD) (data ++ [SENTINEL])
    else some data

/-- The function `init` (lines 116-181). `data.reserve` only sets a capacity and has no
counterpart here. -/
def init (fuel : Nat) (mw : Middleware) (s : State) :
    Except Fault (Bool × State × List Event) :=
  let size := s.data_size
  let s := { s with hello_ := { s.hello_ with index := 0 } }
  let s := { s with hello_ := { s.hello_ with message := "HelloWorld" } }
  match payload_loop size fuel 0 [] with
  | none => Except.error Fault.out_of_fuel
  | some data =>
    let s := { s with hello_ := { s.hello_ with data := data } }
    let t0 := [Event.cout (Cout.send s.hello_.data),
      Event.create_participant 0 "Participant_publisher"]
    let s := { s with participant_ := mw.create_participant }
    match s.participant_ with
    | none => Except.ok (false, s, t0)
    | some p =>
      let t1 := t0 ++ [Event.register_type p,
        Event.create_topic p "HelloWorldTopic" "HelloWorld"]
      let s := { s with topic_ := mw.create_topic }
      if s.topic_ = none then Except.ok (false, s, t1)
      else
        let t2 := t1 ++ [Event.create_publisher p]
        let s := { s with publisher_ := mw.create_publisher }
        match s.publisher_ with
        | none => Except.ok (false, s, t2)
        | some pub =>
          let t3 := t2 ++ [Event.cout Cout.creating_reliability,
            Event.cout Cout.creating_datawriter, Event.create_datawriter pub s.topic_]
          let s := { s with writer_ := mw.create_datawriter }
          if s.writer_ = none then
            Except.ok (false, s, t3 ++ [Event.cout Cout.datawriter_not_created])
          else
            Except.ok (true, s, t3 ++ [Event.cout Cout.datawriter_created])

/-- The function `publish` (lines 184-222); `ret_write` is what `write` returns if called. -/
def publish (ret_write : Nat) (s : State) : Except Fault (Bool × State × List Event) :=
  if s.listener_.matched_ > 0 then
    let s := { s with hello_ := { s.hello_ with index := (s.hello_.index + 1) % UINT32_MOD } }
    match s.writer_ with
    | none => Except.error Fault.null_dereference
    | some w =>
      let t := [Event.write w s.hello_ ret_write]
      let t :=
        if ret_write = RETCODE_OK then
          t ++ [Event.cout Cout.write_succeded_ok]
        else if ret_write = RETCODE_PRECONDITION_NOT_MET then
          t ++ [Event.cout Cout.write_failed_precondition_not_met]
        else
          t ++ [Event.cout (Cout.write_failed_other ret_write)]
      Except.ok (true, s, t)
  else
    Except.ok (false, s, [])

/-- The middleware delivers a list of match notifications to the listener. -/
def deliver : List PublicationMatchedStatus → State → State × List Event
  | [], s => (s, [])
  | info :: rest, s =>
    let r := on_publication_matched info s.listener_
    let q := deliver rest { s with listener_ := r.1 }
    (q.1, r.2 ++ q.2)

/-- One attempt of the send loop: the notifications of the tick arrive, then `publish`. -/
def attempt (t : Tick) (s : State) : Except Fault (Bool × State × List Event) :=
  let d := deliver t.callbacks s
  match publish t.ret_write d.1 with
  | Except.error e => Except.error e
  | Except.ok (b, s1, tr) => Except.ok (b, s1, d.2 ++ tr)

/-- The loop of `run` (lines 229-238), from the value `samples_sent` has reached. The result
holds the final `samples_sent`. -/
def run_loop (samples : Nat) : List Tick → Nat → State → Except Fault (Nat × State × List Event)
  | [], samples_sent, s =>
    if samples_sent < samples then Except.error Fault.out_of_fuel
    else Except.ok (samples_sent, s, [])
  | t :: rest, samples_sent, s =>
    if samples_sent < samples then
      match attempt t s with
      | Except.error e => Except.error e
      | Except.ok (b, s1, tr) =>
        let sent := if b then (samples_sent + 1) % UINT32_MOD else samples_sent
        let tr := if b then tr ++ [Event.cout (Cout.message_sent s1.hello_.message s1.hello_.index)]
          else tr
        let tr := tr ++ [Event.sleep_for 1000]
        match run_loop samples rest sent s1 with
        | Except.error e => Except.error e
        | Except.ok (n, s2, tr2) => Except.ok (n, s2, tr ++ tr2)
    else Except.ok (samples_sent, s, [])

/-- The function `run` (lines 225-239); `samples` is a `uint32_t`. -/
def run (samples : Nat) (ticks : List Tick) (s : State) :
    Except Fault (Nat × State × List Event) :=
  run_loop samples ticks 0 s

/-! ## Observations on traces -/

/-- The samples passed to `write`, in order. -/
def writes : List Event → List HelloWorld
  | [] => []
  | Event.write _ sample _ :: rest => sample :: writes rest
  | _ :: rest => writes rest

/-- The number of `write` calls that returned `RETCODE_OK`. -/
def ok_writes : List Event → Nat
  | [] => 0
  | Event.write _ _ ret :: rest => (if ret = RETCODE_OK then 1 else 0) + ok_writes rest
  | _ :: rest => ok_writes rest

/-- The four acquisition steps of `init`. -/
inductive Creation where
  | participant
  | topic
  | publisher
  | writer
  deriving DecidableEq, Repr

/-- The creation calls of a events_of, in order. -/
def creations : List Event → List Creation
  | [] => []
  | Event.create_participant _ _ :: rest => Creation.participant :: creations rest
  | Event.create_topic _ _ _ :: rest => Creation.topic :: creations rest
  | Event.create_publisher _ :: rest => Creation.publisher :: creations rest
  | Event.create_datawriter _ _ :: rest => Creation.writer :: creations rest
  | _ :: rest => creations rest

/-- The handle a release call is asked to release; `none` for any other event. -/
def released : Event → Option Ptr
  | Event.delete_datawriter _ h => some h
  | Event.delete_publisher _ h => some h
  | Event.delete_topic _ h => some h
  | Event.delete_participant h => some h
  | _ => none

/-- Some release call of the events_of is made with a null handle. -/
def releases_null (tr : List Event) : Bool :=
  tr.any (fun e => released e == some none)

/-! ## Harnesses and sample inputs -/

/-- A sequence of `publish` calls with nothing happening in between; `rets` gives what
`write` returns in each call that reaches it. -/
def publish_seq : List Nat → State → Except Fault (List Bool × State × List Event)
  | [], s => Except.ok ([], s, [])
  | ret :: rest, s =>
    match publish ret s with
    | Except.error e => Except.error e
    | Except.ok (b, s1, tr) =>
      match publish_seq rest s1 with
      | Except.error e => Except.error e
      | Except.ok (bs, s2, tr2) => Except.ok (b :: bs, s2, tr ++ tr2)

/-- A sequence of attempts, one per tick, without the bookkeeping of `run`. -/
def attempts : List Tick → State → Except Fault (List Bool × State × List Event)
  | [], s => Except.ok ([], s, [])
  | t :: rest, s =>
    match attempt t s with
    | Except.error e => Except.error e
    | Except.ok (b, s1, tr) =>
      match attempts rest s1 with
      | Except.error e => Except.error e
      | Except.ok (bs, s2, tr2) => Except.ok (b :: bs, s2, tr ++ tr2)

/-- A middleware whose four creation calls all succeed. -/
def mw_ok : Middleware :=
  { create_participant := some 1
    create_topic := some 2
    create_publisher := some 3
    create_datawriter := some 4 }

/-- A middleware whose participant creation fails. -/
def mw_no_participant : Middleware :=
  { create_participant := none
    create_topic := some 2
    create_publisher := some 3
    create_datawriter := some 4 }

/-- A middleware whose topic creation fails. -/
def mw_no_topic : Middleware :=
  { create_participant := some 1
    create_topic := none
    create_publisher := some 3
    create_datawriter := some 4 }

/-- The notification "one subscriber matched, one in total". -/
def first_match : PublicationMatchedStatus :=
  { total_count := 1, current_count_change := 1 }

/-- A tick without notifications in which `write` returns `RETCODE_OK`. -/
def ok_tick : Tick :=
  { callbacks := [], ret_write := RETCODE_OK }

/-- The state after the listener received `info`. -/
def notified (info : PublicationMatchedStatus) (s : State) : State :=
  { s with listener_ := (on_publication_matched info s.listener_).1 }

/-- The client state `init` leaves behind (the state it started from if it did not return). -/
def after_init (fuel : Nat) (mw : Middleware) (s : State) : State :=
  match init fuel mw s with
  | Except.ok (_, s1, _) => s1
  | Except.error _ => s

/-- A client configured for 8 bytes, initialised against `mw_ok`, with one subscriber
matched. -/
def ready : State :=
  notified first_match (after_init 3 mw_ok (set_size 8 construct))

/-- The client state an execution ends in (`s` if it did not return). -/
def final_state {α : Type} (r : Except Fault (α × State × List Event)) (s : State) : State :=
  match r with
  | Except.ok (_, s1, _) => s1
  | Except.error _ => s

/-- The events of an execution (none if it did not return). -/
def events_of {α : Type} (r : Except Fault (α × State × List Event)) : List Event :=
  match r with
  | Except.ok (_, _, tr) => tr
  | Except.error _ => []

/-- The client `ready` after one `publish` whose write returned OK: its index is 1. -/
def published : State :=
  final_state (publish RETCODE_OK ready) ready

/-- Three ticks: a write that returns OK; an unmatch notification, so no write; a match
notification and a write that returns precondition-not-met. -/
def sample_ticks : List Tick :=
  [⟨[], RETCODE_OK⟩, ⟨[⟨0, -1⟩], RETCODE_OK⟩, ⟨[first_match], RETCODE_PRECONDITION_NOT_MET⟩]

/-! ## Lemmas -/

theorem payload_loop_eq (size : Nat) (hsize : size + 4 ≤ SIZE_T_MOD) :
    ∀ (fuel i : Nat) (data : List Nat), (size - i + 3) / 4 < fuel →
      payload_loop size fuel i data
        = some (data ++ List.replicate ((size - i + 3) / 4) SENTINEL) := by
  intro fuel
  induction fuel with
  | zero => intro i data h; omega
  | succ fuel ih =>
    intro i data h
    unfold payload_loop
    by_cases hi : i < size
    · have hmod : (i + 4) % SIZE_T_MOD = i + 4 := Nat.mod_eq_of_lt (by omega)
      have hk : (size - i + 3) / 4 = (size - (i + 4) + 3) / 4 + 1 := by omega
      rw [if_pos hi, hmod, ih (i + 4) _ (by omega), hk, List.replicate_succ]
      simp
    · have hk : (size - i + 3) / 4 = 0 := by omega
      rw [if_neg hi, hk]
      simp

theorem uint32_add_four_le (S : Nat) : S % UINT32_MOD + 4 ≤ SIZE_T_MOD := by
  have h : S % UINT32_MOD < UINT32_MOD := Nat.mod_lt _ (by unfold UINT32_MOD; norm_num)
  unfold UINT32_MOD at h
  unfold UINT32_MOD SIZE_T_MOD
  omega

theorem payload_of_set_size (S fuel : Nat) (hfuel : (S % UINT32_MOD + 3) / 4 < fuel) :
    payload_loop (set_size S construct).data_size fuel 0 []
      = some (List.replicate ((S % UINT32_MOD + 3) / 4) SENTINEL) := by
  have h := payload_loop_eq (S % UINT32_MOD) (uint32_add_four_le S) fuel 0 []
    (by simpa using hfuel)
  simpa [set_size] using h

/-- Whatever the middleware answers, `init` with enough fuel returns, and the message it
leaves is index 0, label "HelloWorld" and the payload built by the loop; the listener and the
configured size are untouched. -/
theorem init_message (S fuel : Nat) (mw : Middleware)
    (hfuel : (S % UINT32_MOD + 3) / 4 < fuel) :
    ∃ b s tr, init fuel mw (set_size S construct) = Except.ok (b, s, tr)
      ∧ s.hello_ = ⟨0, "HelloWorld", List.replicate ((S % UINT32_MOD + 3) / 4) SENTINEL⟩
      ∧ s.listener_.matched_ = 0 := by
  have h := payload_of_set_size S fuel hfuel
  unfold init
  simp only [h]
  rcases mw with ⟨_ | p, _ | t, _ | pub, _ | w⟩ <;> simp [set_size, construct]

/-! ## The payload built by `init` -/

/-- C1 (as stated, refuted): for the configured size `S = 5`, which is at least 4, the
payload `init` stores does not have `floor(5/4) = 1` words: it has 2. -/
theorem init_payload_floor_counterexample :
    ∃ b s tr, init 3 mw_ok (set_size 5 construct) = Except.ok (b, s, tr)
      ∧ s.hello_.data.length = 2 ∧ s.hello_.data.length ≠ 5 / 4 :=
  ⟨_, _, _, rfl, rfl, by decide⟩

/-- C1 (amended): for every configured payload size `S` with `4 ≤ S`, set through `set_size`
before `init`, the payload that `init` builds and stores in the message contains exactly
`ceil(S/4) = (S + 3) / 4` words, every word equals the sentinel `0xdeadbeef`, and the number
of words is `floor(S/4)` exactly when `S` is a multiple of 4. -/
theorem init_payload_ceil (S fuel : Nat) (mw : Middleware) (_hS : 4 ≤ S)
    (h32 : S < UINT32_MOD) (hfuel : (S + 3) / 4 < fuel) :
    ∃ b s tr, init fuel mw (set_size S construct) = Except.ok (b, s, tr)
      ∧ s.hello_.data.length = (S + 3) / 4
      ∧ (∀ w ∈ s.hello_.data, w = 0xdeadbeef)
      ∧ (s.hello_.data.length = S / 4 ↔ S % 4 = 0) := by
  have hmod : S % UINT32_MOD = S := Nat.mod_eq_of_lt h32
  obtain ⟨b, s, tr, hinit, hmsg, -⟩ := init_message S fuel mw (by rw [hmod]; exact hfuel)
  refine ⟨b, s, tr, hinit, ?_, ?_, ?_⟩
  · rw [hmsg, hmod]; simp
  · intro w hw
    rw [hmsg] at hw
    exact (List.eq_of_mem_replicate hw).trans rfl
  · rw [hmsg, hmod]
    simp only [List.length_replicate]
    omega

theorem init_payload_ceil_witness :
    4 ≤ 6 ∧ 6 < UINT32_MOD ∧ (6 + 3) / 4 < 3
      ∧ ∃ b s tr, init 3 mw_ok (set_size 6 construct) = Except.ok (b, s, tr)
        ∧ s.hello_.data.length = (6 + 3) / 4
        ∧ (∀ w ∈ s.hello_.data, w = 0xdeadbeef)
        ∧ (s.hello_.data.length = 6 / 4 ↔ 6 % 4 = 0) :=
  ⟨by decide, by decide, by decide,
    init_payload_ceil 6 3 mw_ok (by decide) (by decide) (by decide)⟩

/-- C10: for every payload size `S` below `2^32`, also below 4 and not a multiple of 4, the
payload loop of `init` terminates (`init` returns once the fuel exceeds the number of words)
and builds exactly `ceil(S/4) = (S + 3) / 4` words, all equal to `0xdeadbeef`: no word for
`S = 0`, one word for `S` from 1 to 4, and 256 words for the default size 1024 of a client on
which `set_size` was never called. -/
theorem init_payload_every_size (S fuel : Nat) (mw : Middleware)
    (h32 : S < UINT32_MOD) (hfuel : (S + 3) / 4 < fuel) :
    (∃ b s tr, init fuel mw (set_size S construct) = Except.ok (b, s, tr)
      ∧ s.hello_.data = List.replicate ((S + 3) / 4) 0xdeadbeef
      ∧ (S = 0 → s.hello_.data.length = 0)
      ∧ (1 ≤ S → S ≤ 4 → s.hello_.data.length = 1))
    ∧ (∀ fuel0, 256 < fuel0 → ∃ b s tr, init fuel0 mw construct = Except.ok (b, s, tr)
      ∧ s.hello_.data = List.replicate 256 0xdeadbeef) := by
  have hmod : S % UINT32_MOD = S := Nat.mod_eq_of_lt h32
  constructor
  · obtain ⟨b, s, tr, hinit, hmsg, -⟩ := init_message S fuel mw (by rw [hmod]; exact hfuel)
    refine ⟨b, s, tr, hinit, ?_, ?_, ?_⟩
    · rw [hmsg, hmod]; rfl
    · intro h0
      rw [hmsg, hmod]
      simp only [List.length_replicate]
      omega
    · intro h1 h4
      rw [hmsg, hmod]
      simp only [List.length_replicate]
      omega
  · intro fuel0 h0
    have hd : (1024 % UINT32_MOD + 3) / 4 = 256 := by decide
    obtain ⟨b, s, tr, hinit, hmsg, -⟩ := init_message 1024 fuel0 mw (by rw [hd]; exact h0)
    have hc : set_size 1024 construct = construct := by decide
    rw [hc] at hinit
    refine ⟨b, s, tr, hinit, ?_⟩
    rw [hmsg, hd]; rfl

theorem init_payload_every_size_witness :
    3 < UINT32_MOD ∧ (3 + 3) / 4 < 2
      ∧ (∃ b s tr, init 2 mw_no_participant (set_size 3 construct) = Except.ok (b, s, tr)
        ∧ s.hello_.data = List.replicate ((3 + 3) / 4) 0xdeadbeef
        ∧ (3 = 0 → s.hello_.data.length = 0)
        ∧ (1 ≤ 3 → 3 ≤ 4 → s.hello_.data.length = 1))
      ∧ (256 < 257 → ∃ b s tr, init 257 mw_no_participant construct = Except.ok (b, s, tr)
        ∧ s.hello_.data = List.replicate 256 0xdeadbeef) :=
  ⟨by decide, by decide,
    (init_payload_every_size 3 2 mw_no_participant (by decide) (by decide)).1,
    (init_payload_every_size 3 2 mw_no_participant (by decide) (by decide)).2 257⟩

/-! ## The acquisition steps of `init` -/

/-- C7: `init` (run on a constructed client, with any configured size and enough fuel for
the payload loop) returns, and it returns false if and only if one of the four creation
calls participant, topic, publisher, writer returns a null handle. The creation calls are
made in that order and stop at the first null result, and `init` returns true exactly when
all four handles of the client are non-null afterwards. -/
theorem init_false_iff_null_creation (S fuel : Nat) (mw : Middleware)
    (hfuel : (S % UINT32_MOD + 3) / 4 < fuel) :
    ∃ b s tr, init fuel mw (set_size S construct) = Except.ok (b, s, tr)
      ∧ (b = false ↔ (mw.create_participant = none ∨ mw.create_topic = none
          ∨ mw.create_publisher = none ∨ mw.create_datawriter = none))
      ∧ (b = true ↔ (s.participant_ ≠ none ∧ s.topic_ ≠ none
          ∧ s.publisher_ ≠ none ∧ s.writer_ ≠ none))
      ∧ (mw.create_participant = none → creations tr = [Creation.participant])
      ∧ (mw.create_participant ≠ none → mw.create_topic = none →
          creations tr = [Creation.participant, Creation.topic])
      ∧ (mw.create_participant ≠ none → mw.create_topic ≠ none →
          mw.create_publisher = none →
          creations tr = [Creation.participant, Creation.topic, Creation.publisher])
      ∧ (mw.create_participant ≠ none → mw.create_topic ≠ none →
          mw.create_publisher ≠ none →
          creations tr = [Creation.participant, Creation.topic, Creation.publisher,
            Creation.writer]) := by
  have h := payload_of_set_size S fuel hfuel
  unfold init
  simp only [h]
  rcases mw with ⟨_ | p, _ | t, _ | pub, _ | w⟩ <;> refine ⟨_, _, _, rfl, ?_⟩ <;>
    simp [set_size, construct, creations]

theorem init_false_iff_null_creation_witness :
    (8 % UINT32_MOD + 3) / 4 < 3
    ∧ ∃ b s tr, init 3 mw_no_topic (set_size 8 construct) = Except.ok (b, s, tr)
      ∧ (b = false ↔ (mw_no_topic.create_participant = none ∨ mw_no_topic.create_topic = none
          ∨ mw_no_topic.create_publisher = none ∨ mw_no_topic.create_datawriter = none))
      ∧ (b = true ↔ (s.participant_ ≠ none ∧ s.topic_ ≠ none
          ∧ s.publisher_ ≠ none ∧ s.writer_ ≠ none))
      ∧ (mw_no_topic.create_participant = none → creations tr = [Creation.participant])
      ∧ (mw_no_topic.create_participant ≠ none → mw_no_topic.create_topic = none →
          creations tr = [Creation.participant, Creation.topic])
      ∧ (mw_no_topic.create_participant ≠ none → mw_no_topic.create_topic ≠ none →
          mw_no_topic.create_publisher = none →
          creations tr = [Creation.participant, Creation.topic, Creation.publisher])
      ∧ (mw_no_topic.create_participant ≠ none → mw_no_topic.create_topic ≠ none →
          mw_no_topic.create_publisher ≠ none →
          creations tr = [Creation.participant, Creation.topic, Creation.publisher,
            Creation.writer]) :=
  ⟨by decide, init_false_iff_null_creation 8 3 mw_no_topic (by decide)⟩


theorem writes_append (a b : List Event) : writes (a ++ b) = writes a ++ writes b := by
  induction a with
  | nil => rfl
  | cons e a ih => cases e <;> simp [writes, ih]

theorem ok_writes_append (a b : List Event) : ok_writes (a ++ b) = ok_writes a + ok_writes b := by
  induction a with
  | nil => simp [ok_writes]
  | cons e a ih => cases e <;> simp [ok_writes, ih, Nat.add_assoc]

theorem publish_unmatched_eq (ret : Nat) (s : State) (h : s.listener_.matched_ ≤ 0) :
    publish ret s = Except.ok (false, s, []) := by
  unfold publish
  rw [if_neg (by omega)]

theorem publish_matched_eq (ret w : Nat) (s : State) (h : 0 < s.listener_.matched_)
    (hw : s.writer_ = some w) :
    publish ret s = Except.ok (true,
      { s with hello_ := { s.hello_ with index := (s.hello_.index + 1) % UINT32_MOD } },
      [Event.write w { s.hello_ with index := (s.hello_.index + 1) % UINT32_MOD } ret,
        Event.cout (if ret = RETCODE_OK then Cout.write_succeded_ok
          else if ret = RETCODE_PRECONDITION_NOT_MET then Cout.write_failed_precondition_not_met
          else Cout.write_failed_other ret)]) := by
  unfold publish
  rw [if_pos (by omega)]
  simp only [hw]
  by_cases h1 : ret = RETCODE_OK
  · simp [h1]
  · by_cases h2 : ret = RETCODE_PRECONDITION_NOT_MET
    · have h3 : RETCODE_PRECONDITION_NOT_MET ≠ RETCODE_OK := by decide
      simp [h2, h3]
    · simp [h1, h2]

theorem publish_ok_cases (ret : Nat) (s s1 : State) (b : Bool) (tr : List Event)
    (h : publish ret s = Except.ok (b, s1, tr)) :
    (b = false ∧ s.listener_.matched_ ≤ 0 ∧ s1 = s ∧ tr = [])
    ∨ (b = true ∧ 0 < s.listener_.matched_
        ∧ s1 = { s with hello_ := { s.hello_ with index := (s.hello_.index + 1) % UINT32_MOD } }
        ∧ writes tr = [s1.hello_]
        ∧ ok_writes tr = if ret = RETCODE_OK then 1 else 0) := by
  by_cases hm : 0 < s.listener_.matched_
  · right
    rcases Option.eq_none_or_eq_some s.writer_ with hw | ⟨w, hw⟩
    · unfold publish at h
      rw [if_pos (by omega)] at h
      simp [hw] at h
    · rw [publish_matched_eq ret w s hm hw] at h
      simp only [Except.ok.injEq, Prod.mk.injEq] at h
      obtain ⟨hb, hs, ht⟩ := h
      subst hb hs ht
      refine ⟨rfl, hm, rfl, ?_, ?_⟩
      · simp [writes]
      · simp [ok_writes]
  · left
    rw [publish_unmatched_eq ret s (by omega)] at h
    simp only [Except.ok.injEq, Prod.mk.injEq] at h
    obtain ⟨hb, hs, ht⟩ := h
    exact ⟨hb.symm, by omega, hs.symm, ht.symm⟩

theorem deliver_fields (cbs : List PublicationMatchedStatus) :
    ∀ s : State, (deliver cbs s).1.hello_ = s.hello_ ∧ (deliver cbs s).1.writer_ = s.writer_
      ∧ writes (deliver cbs s).2 = [] ∧ ok_writes (deliver cbs s).2 = 0 := by
  induction cbs with
  | nil => intro s; simp [deliver, writes, ok_writes]
  | cons info rest ih =>
    intro s
    obtain ⟨h1, h2, h3, h4⟩ := ih { s with listener_ := (on_publication_matched info s.listener_).1 }
    have hw : writes (on_publication_matched info s.listener_).2 = []
        ∧ ok_writes (on_publication_matched info s.listener_).2 = 0 := by
      unfold on_publication_matched
      split_ifs <;> simp [writes, ok_writes]
    simp only [deliver, writes_append, ok_writes_append, h1, h2, h3, h4, hw.1, hw.2]
    simp

theorem attempt_ok_cases (t : Tick) (s s1 : State) (b : Bool) (tr : List Event)
    (h : attempt t s = Except.ok (b, s1, tr)) :
    (b = false ∧ s1.hello_ = s.hello_ ∧ writes tr = [] ∧ ok_writes tr = 0)
    ∨ (b = true
        ∧ s1.hello_ = { s.hello_ with index := (s.hello_.index + 1) % UINT32_MOD }
        ∧ writes tr = [s1.hello_]
        ∧ ok_writes tr = if t.ret_write = RETCODE_OK then 1 else 0) := by
  unfold attempt at h
  obtain ⟨d1, d2, d3, d4⟩ := deliver_fields t.callbacks s
  cases hp : publish t.ret_write (deliver t.callbacks s).1 with
  | error e => simp [hp] at h
  | ok r =>
    obtain ⟨b0, s0, tr0⟩ := r
    simp only [hp, Except.ok.injEq, Prod.mk.injEq] at h
    obtain ⟨hb, hs, ht⟩ := h
    subst hb hs ht
    rcases publish_ok_cases _ _ _ _ _ hp with ⟨hb, -, hs, ht⟩ | ⟨hb, -, hs, hwr, hok⟩
    · left
      subst hs ht
      exact ⟨hb, d1, by simp [writes_append, d3, writes], by simp [ok_writes_append, d4, ok_writes]⟩
    · right
      refine ⟨hb, ?_, ?_, ?_⟩
      · rw [hs]; simp [d1]
      · simp [writes_append, d3, hwr]
      · simp [ok_writes_append, d4, hok]

theorem run_loop_writes (N : Nat) (hN : N < UINT32_MOD) :
    ∀ (ticks : List Tick) (sent : Nat) (s : State) (n : Nat) (s1 : State) (tr : List Event),
      sent ≤ N → run_loop N ticks sent s = Except.ok (n, s1, tr) →
      n = N ∧ (writes tr).length + sent = N := by
  intro ticks
  induction ticks with
  | nil =>
    intro sent s n s1 tr hle h
    unfold run_loop at h
    by_cases hlt : sent < N
    · simp [hlt] at h
    · simp only [hlt, if_false, Except.ok.injEq, Prod.mk.injEq] at h
      obtain ⟨hn, -, ht⟩ := h
      subst hn ht
      simp [writes]; omega
  | cons t rest ih =>
    intro sent s n s1 tr hle h
    unfold run_loop at h
    by_cases hlt : sent < N
    · simp only [hlt, if_true] at h
      cases ha : attempt t s with
      | error e => simp [ha] at h
      | ok r =>
        obtain ⟨b, sa, tra⟩ := r
        simp only [ha] at h
        cases hr : run_loop N rest (if b = true then (sent + 1) % UINT32_MOD else sent) sa with
        | error e => simp [hr] at h
        | ok r2 =>
          obtain ⟨n2, s2, tr2⟩ := r2
          simp only [hr, Except.ok.injEq, Prod.mk.injEq] at h
          obtain ⟨hn, -, ht⟩ := h
          subst hn ht
          have hmod : (sent + 1) % UINT32_MOD = sent + 1 := Nat.mod_eq_of_lt (by omega)
          rcases attempt_ok_cases _ _ _ _ _ ha with ⟨hb, -, hw, -⟩ | ⟨hb, -, hw, -⟩
          · subst hb
            obtain ⟨h1, h2⟩ := ih sent sa n2 s2 tr2 hle (by simpa using hr)
            refine ⟨h1, ?_⟩
            simp [writes_append, hw, writes]
            omega
          · subst hb
            obtain ⟨h1, h2⟩ := ih (sent + 1) sa n2 s2 tr2 (by omega) (by simpa [hmod] using hr)
            refine ⟨h1, ?_⟩
            simp [writes_append, hw, writes]
            omega
    · simp only [hlt, if_false, Except.ok.injEq, Prod.mk.injEq] at h
      obtain ⟨hn, -, ht⟩ := h
      subst hn ht
      simp [writes]; omega

theorem attempts_all_false (ts : List Tick) :
    ∀ (s s1 : State) (bs : List Bool) (tr : List Event),
      attempts ts s = Except.ok (bs, s1, tr) → (∀ b ∈ bs, b = false) →
      s1.hello_ = s.hello_ ∧ writes tr = [] := by
  induction ts with
  | nil =>
    intro s s1 bs tr h _
    simp only [attempts, Except.ok.injEq, Prod.mk.injEq] at h
    obtain ⟨-, hs, ht⟩ := h
    subst hs ht
    exact ⟨rfl, rfl⟩
  | cons t rest ih =>
    intro s s1 bs tr h hall
    unfold attempts at h
    cases ha : attempt t s with
    | error e => simp [ha] at h
    | ok r =>
      obtain ⟨b, sa, tra⟩ := r
      simp only [ha] at h
      cases hr : attempts rest sa with
      | error e => simp [hr] at h
      | ok r2 =>
        obtain ⟨bs2, s2, tr2⟩ := r2
        simp only [hr, Except.ok.injEq, Prod.mk.injEq] at h
        obtain ⟨hb, hs, ht⟩ := h
        subst hb hs ht
        have hbf : b = false := hall b (by simp)
        obtain ⟨h1, h2⟩ := ih sa _ bs2 tr2 hr (fun x hx => hall x (by simp [hx]))
        rcases attempt_ok_cases _ _ _ _ _ ha with ⟨-, hh, hw, -⟩ | ⟨hb, -, -, -⟩
        · exact ⟨h1.trans hh, by simp [writes_append, hw, h2]⟩
        · rw [hbf] at hb; cases hb

/-! ## The match listener -/

/-- C5: for every prior `matched_` value `m` and every reported total `k`, the listener
callback `on_publication_matched` sets `matched_` to `k` when the change is `+1`, sets it to
`k` when the change is `-1`, and leaves it equal to `m` for every other change. -/
theorem on_publication_matched_count (m k : Int) :
    (on_publication_matched ⟨k, 1⟩ ⟨m⟩).1.matched_ = k
    ∧ (on_publication_matched ⟨k, -1⟩ ⟨m⟩).1.matched_ = k
    ∧ (∀ d : Int, d ≠ 1 → d ≠ -1 → (on_publication_matched ⟨k, d⟩ ⟨m⟩).1.matched_ = m) := by
  refine ⟨by simp [on_publication_matched], by simp [on_publication_matched], ?_⟩
  intro d h1 h2
  simp [on_publication_matched, h1, h2]

theorem on_publication_matched_count_witness :
    (on_publication_matched ⟨5, 1⟩ ⟨3⟩).1.matched_ = 5
    ∧ (on_publication_matched ⟨5, -1⟩ ⟨3⟩).1.matched_ = 5
    ∧ (on_publication_matched ⟨5, 2⟩ ⟨3⟩).1.matched_ = 3 :=
  ⟨(on_publication_matched_count 3 5).1, (on_publication_matched_count 3 5).2.1,
    (on_publication_matched_count 3 5).2.2 2 (by decide) (by decide)⟩

/-! ## `publish` -/

/-- C4: for every client state with `matched_ <= 0` and every code the writer would return,
`publish` returns false, calls nothing (the writer included) and leaves the whole client
state, hence the message and its index, unchanged; so does any number of repeated `publish`
calls. -/
theorem publish_unmatched_noop (ret : Nat) (s : State) (h : s.listener_.matched_ ≤ 0) :
    publish ret s = Except.ok (false, s, [])
    ∧ ∀ rets : List Nat,
        publish_seq rets s = Except.ok (List.replicate rets.length false, s, []) := by
  refine ⟨publish_unmatched_eq ret s h, ?_⟩
  intro rets
  induction rets with
  | nil => rfl
  | cons r rest ih =>
    unfold publish_seq
    simp [publish_unmatched_eq r s h, ih, List.replicate_succ]

theorem publish_unmatched_noop_witness :
    construct.listener_.matched_ ≤ 0
    ∧ publish 0 construct = Except.ok (false, construct, [])
    ∧ ∀ rets : List Nat,
        publish_seq rets construct
          = Except.ok (List.replicate rets.length false, construct, []) :=
  ⟨by decide, publish_unmatched_noop 0 construct (by decide)⟩

/-! ## Teardown -/

/-- The release calls of the destructor never go through a null pointer on a client that
`init` has left, however far `init` got, nor on a client on which `init` never ran; the
writer, publisher and topic are released only when held, in that order, and the participant
release comes last. -/
theorem destructor_after_init (S fuel : Nat) (mw : Middleware)
    (hfuel : (S % UINT32_MOD + 3) / 4 < fuel) :
    ∃ b s tr, init fuel mw (set_size S construct) = Except.ok (b, s, tr)
      ∧ destructor s = Except.ok
          ((match s.writer_, s.publisher_ with
              | some w, some p => [Event.delete_datawriter p (some w)]
              | _, _ => [])
            ++ (match s.publisher_, s.participant_ with
              | some p, some q => [Event.delete_publisher q (some p)]
              | _, _ => [])
            ++ (match s.topic_, s.participant_ with
              | some t, some q => [Event.delete_topic q (some t)]
              | _, _ => [])
            ++ [Event.delete_participant s.participant_]) := by
  have h := payload_of_set_size S fuel hfuel
  unfold init
  simp only [h]
  rcases mw with ⟨_ | p, _ | t, _ | pub, _ | w⟩ <;> exact ⟨_, _, _, rfl, rfl⟩

/-- C6 (the code at the failing inputs): on a client on which `init` never ran, and on a
client whose `init` failed at the participant step, the destructor makes exactly one
middleware call, `delete_participant`, and makes it with the null participant handle. -/
theorem destructor_releases_null_participant :
    destructor construct = Except.ok [Event.delete_participant none]
    ∧ releases_null [Event.delete_participant none] = true
    ∧ init 3 mw_no_participant (set_size 8 construct)
        = Except.ok (false, after_init 3 mw_no_participant (set_size 8 construct),
            [Event.cout (Cout.send [SENTINEL, SENTINEL]),
              Event.create_participant 0 "Participant_publisher"])
    ∧ destructor (after_init 3 mw_no_participant (set_size 8 construct))
        = Except.ok [Event.delete_participant none] :=
  ⟨rfl, rfl, rfl, rfl⟩

theorem ok_writes_le (tr : List Event) : ok_writes tr ≤ (writes tr).length := by
  induction tr with
  | nil => simp [ok_writes, writes]
  | cons e tr ih =>
    cases e <;> simp only [ok_writes, writes, List.length_cons] <;> try exact ih
    split_ifs <;> omega

theorem run_loop_done (N sent : Nat) (s : State) (h : ¬ sent < N) :
    ∀ ticks : List Tick, run_loop N ticks sent s = Except.ok (sent, s, []) := by
  intro ticks
  cases ticks <;> simp [run_loop, h]

theorem init_true_fields (fuel : Nat) (mw : Middleware) (s s0 : State) (tr0 : List Event)
    (h : init fuel mw s = Except.ok (true, s0, tr0)) :
    s0.hello_.index = 0 ∧ s0.hello_.message = "HelloWorld" ∧ s0.listener_ = s.listener_
      ∧ ∃ w, s0.writer_ = some w := by
  unfold init at h
  cases hp : payload_loop s.data_size fuel 0 [] with
  | none => simp [hp] at h
  | some data =>
    simp only [hp] at h
    rcases mw with ⟨_ | p, _ | t, _ | pub, _ | w⟩ <;> simp at h
    obtain ⟨hs, -⟩ := h
    subst hs
    simp

theorem init_index_zero (fuel : Nat) (mw : Middleware) (s s1 : State) (b : Bool)
    (tr : List Event) (h : init fuel mw s = Except.ok (b, s1, tr)) :
    s1.hello_.index = 0 := by
  unfold init at h
  cases hp : payload_loop s.data_size fuel 0 [] with
  | none => simp [hp] at h
  | some data =>
    simp only [hp] at h
    rcases mw with ⟨_ | p, _ | t, _ | pub, _ | w⟩ <;> simp at h <;>
      (obtain ⟨-, hs, -⟩ := h; subst hs; rfl)

theorem init_returns (fuel : Nat) (mw : Middleware) (s : State)
    (hsize : s.data_size + 4 ≤ SIZE_T_MOD) (hfuel : (s.data_size + 3) / 4 < fuel) :
    ∃ b s1 tr, init fuel mw s = Except.ok (b, s1, tr) := by
  have h := payload_loop_eq s.data_size hsize fuel 0 [] (by simpa using hfuel)
  unfold init
  simp only [h]
  rcases mw with ⟨_ | p, _ | t, _ | pub, _ | w⟩ <;> exact ⟨_, _, _, rfl⟩

/-! ## The message index -/

/-- C8: the message index is 0 after `init`, whatever the client state `init` starts from
and whatever index it held before (`init` returns, given fuel for the payload loop), and
every `publish` that returns true leaves the index exactly 1 greater than it was before that
call, for an index below the maximum of the 32-bit counter; the same holds for a successful
attempt that comes after any number of unsuccessful ones, counted from the index before the
first of them. -/
theorem index_counts_successful_publishes (S fuel : Nat) (mw : Middleware)
    (hfuel : (S % UINT32_MOD + 3) / 4 < fuel) :
    (∃ b s tr, init fuel mw (set_size S construct) = Except.ok (b, s, tr)
      ∧ s.hello_.index = 0)
    ∧ (∀ ret s s1 tr, publish ret s = Except.ok (true, s1, tr) →
        s.hello_.index < UINT32_MOD - 1 → s1.hello_.index = s.hello_.index + 1)
    ∧ (∀ ts t s bs s1 tr1 s2 tr2, attempts ts s = Except.ok (bs, s1, tr1) →
        (∀ b ∈ bs, b = false) → attempt t s1 = Except.ok (true, s2, tr2) →
        s.hello_.index < UINT32_MOD - 1 → s2.hello_.index = s.hello_.index + 1)
    ∧ (∀ fuel0 mw0 s b s1 tr, init fuel0 mw0 s = Except.ok (b, s1, tr) →
        s1.hello_.index = 0)
    ∧ (∀ fuel0 mw0 s, s.data_size + 4 ≤ SIZE_T_MOD → (s.data_size + 3) / 4 < fuel0 →
        ∃ b s1 tr, init fuel0 mw0 s = Except.ok (b, s1, tr) ∧ s1.hello_.index = 0) := by
  refine ⟨?_, ?_, ?_, ?_, ?_⟩
  · obtain ⟨b, s, tr, hinit, hmsg, -⟩ := init_message S fuel mw hfuel
    exact ⟨b, s, tr, hinit, by rw [hmsg]⟩
  · intro ret s s1 tr h hlt
    rcases publish_ok_cases ret s s1 true tr h with ⟨hb, -⟩ | ⟨-, -, hs, -, -⟩
    · cases hb
    · rw [hs]
      exact Nat.mod_eq_of_lt (by omega)
  · intro ts t s bs s1 tr1 s2 tr2 hts hall ht hlt
    obtain ⟨hh, -⟩ := attempts_all_false ts s s1 bs tr1 hts hall
    rcases attempt_ok_cases t s1 s2 true tr2 ht with ⟨hb, -⟩ | ⟨-, hs, -, -⟩
    · cases hb
    · rw [hs, hh]
      exact Nat.mod_eq_of_lt (by omega)
  · intro fuel0 mw0 s b s1 tr h
    exact init_index_zero fuel0 mw0 s s1 b tr h
  · intro fuel0 mw0 s hsize hf
    obtain ⟨b, s1, tr, h⟩ := init_returns fuel0 mw0 s hsize hf
    exact ⟨b, s1, tr, h, init_index_zero fuel0 mw0 s s1 b tr h⟩

theorem index_counts_successful_publishes_witness :
    (8 % UINT32_MOD + 3) / 4 < 3
    ∧ (∃ b s tr, init 3 mw_ok (set_size 8 construct) = Except.ok (b, s, tr)
      ∧ s.hello_.index = 0)
    ∧ (∃ s1 tr, publish 0 ready = Except.ok (true, s1, tr)
      ∧ ready.hello_.index < UINT32_MOD - 1 ∧ s1.hello_.index = ready.hello_.index + 1)
    ∧ (∃ bs s1 tr1 s2 tr2,
        attempts [ok_tick, ok_tick] (after_init 3 mw_ok (set_size 8 construct))
          = Except.ok (bs, s1, tr1)
        ∧ (∀ b ∈ bs, b = false)
        ∧ attempt ⟨[first_match], 7⟩ s1 = Except.ok (true, s2, tr2)
        ∧ s2.hello_.index = (after_init 3 mw_ok (set_size 8 construct)).hello_.index + 1)
    ∧ (published.hello_.index = 1
      ∧ init 3 mw_no_topic published
          = Except.ok (false, after_init 3 mw_no_topic published,
              events_of (init 3 mw_no_topic published))
      ∧ (after_init 3 mw_no_topic published).hello_.index = 0)
    ∧ (published.data_size + 4 ≤ SIZE_T_MOD ∧ (published.data_size + 3) / 4 < 3
      ∧ ∃ b s1 tr, init 3 mw_ok published = Except.ok (b, s1, tr) ∧ s1.hello_.index = 0) :=
  ⟨by decide,
    (index_counts_successful_publishes 8 3 mw_ok (by decide)).1,
    ⟨_, _, rfl, by decide,
      (index_counts_successful_publishes 8 3 mw_ok (by decide)).2.1 0 ready _ _ rfl
        (by decide)⟩,
    ⟨[false, false], _, _, _, _, rfl, by decide, rfl,
      (index_counts_successful_publishes 8 3 mw_ok (by decide)).2.2.1
        [ok_tick, ok_tick] ⟨[first_match], 7⟩ (after_init 3 mw_ok (set_size 8 construct))
        [false, false] _ _ _ _ rfl (by decide) rfl (by decide)⟩,
    ⟨by decide, rfl,
      (index_counts_successful_publishes 8 3 mw_ok (by decide)).2.2.2.1 3 mw_no_topic
        published false (after_init 3 mw_no_topic published)
        (events_of (init 3 mw_no_topic published)) rfl⟩,
    ⟨by decide, by decide,
      (index_counts_successful_publishes 8 3 mw_ok (by decide)).2.2.2.2 3 mw_ok published
        (by decide) (by decide)⟩⟩

/-! ## The send loop -/

/-- C3 (as stated, refuted): with one subscriber matched and a writer whose `write` returns
precondition-not-met, `run(1)` returns after one tick, and the number of writes that
returned OK during it is 0, not 1. -/
theorem run_ok_writes_counterexample :
    ∃ s1 tr, run 1 [⟨[], RETCODE_PRECONDITION_NOT_MET⟩] ready = Except.ok (1, s1, tr)
      ∧ ok_writes tr = 0 ∧ ok_writes tr ≠ 1 :=
  ⟨_, _, rfl, rfl, by decide⟩

/-- C3 (amended): for every `N` of type `uint32_t` and every sequence of match notifications
and write result codes under which `run(N)` returns, the number of `write` calls made during
`run(N)` is exactly `N`, whatever codes they returned (so at most `N` of them returned OK),
and `samples_sent` is `N` on return; for `N = 0`, `run` returns immediately without calling
`publish` or `write`. -/
theorem run_writes_eq_samples (N : Nat) (ticks : List Tick) (s s1 : State) (n : Nat)
    (tr : List Event) (hN : N < UINT32_MOD)
    (h : run N ticks s = Except.ok (n, s1, tr)) :
    (writes tr).length = N ∧ n = N ∧ ok_writes tr ≤ N
    ∧ (∀ ticks0 s0, run 0 ticks0 s0 = Except.ok (0, s0, [])) := by
  obtain ⟨h1, h2⟩ := run_loop_writes N hN ticks 0 s n s1 tr (Nat.zero_le _) h
  refine ⟨by omega, h1, ?_, ?_⟩
  · have := ok_writes_le tr
    omega
  · intro ticks0 s0
    exact run_loop_done 0 0 s0 (by omega) ticks0

theorem run_writes_eq_samples_witness :
    2 < UINT32_MOD
    ∧ run 2 sample_ticks ready
        = Except.ok (2, final_state (run 2 sample_ticks ready) ready,
            events_of (run 2 sample_ticks ready))
    ∧ ((writes (events_of (run 2 sample_ticks ready))).length = 2 ∧ 2 = 2
      ∧ ok_writes (events_of (run 2 sample_ticks ready)) ≤ 2
      ∧ (∀ ticks0 s0, run 0 ticks0 s0 = Except.ok (0, s0, []))) :=
  ⟨by decide, rfl,
    run_writes_eq_samples 2 sample_ticks ready (final_state (run 2 sample_ticks ready) ready)
      2 (events_of (run 2 sample_ticks ready)) (by decide) rfl⟩

/-- C9: end to end. On a client that `init` has just initialised successfully (index 0,
`matched_` 0), after one match notification with change `+1` and total 1, `run(3)` against a
writer that always returns OK returns with `samples_sent = 3`, having made exactly 3 writes,
all OK, whose messages carry the indices 1, 2, 3 in that order. -/
theorem run_three_end_to_end (S fuel k : Nat) (mw : Middleware) (s0 : State)
    (tr0 : List Event)
    (hinit : init fuel mw (set_size S construct) = Except.ok (true, s0, tr0)) :
    s0.hello_.index = 0 ∧ s0.listener_.matched_ = 0
    ∧ ∃ s1 tr, run 3 (List.replicate (k + 3) ok_tick) (notified first_match s0)
        = Except.ok (3, s1, tr)
      ∧ (writes tr).length = 3 ∧ ok_writes tr = 3
      ∧ (writes tr).map HelloWorld.index = [1, 2, 3] := by
  obtain ⟨hidx, -, hl, w, hw⟩ := init_true_fields fuel mw _ s0 tr0 hinit
  have hm : s0.listener_.matched_ = 0 := by rw [hl]; rfl
  refine ⟨hidx, hm, ?_⟩
  have hrep : List.replicate (k + 3) ok_tick
      = ok_tick :: ok_tick :: ok_tick :: List.replicate k ok_tick := rfl
  obtain ⟨⟨idx, msg, data⟩, p, pub, t, wr, ds, ⟨m⟩⟩ := s0
  simp only at hidx hw hm
  subst hidx hw hm
  rw [hrep]
  simp [run, run_loop, run_loop_done, attempt, deliver, publish, ok_tick, notified,
    first_match, on_publication_matched, writes, ok_writes, UINT32_MOD, RETCODE_OK,
    writes_append, ok_writes_append]
  refine ⟨_, _, ⟨rfl, rfl⟩, ?_, ?_, ?_⟩ <;> simp [writes, ok_writes, RETCODE_OK]

theorem run_three_end_to_end_witness :
    init 3 mw_ok (set_size 8 construct)
      = Except.ok (true, after_init 3 mw_ok (set_size 8 construct),
          [Event.cout (Cout.send [SENTINEL, SENTINEL]),
            Event.create_participant 0 "Participant_publisher", Event.register_type 1,
            Event.create_topic 1 "HelloWorldTopic" "HelloWorld", Event.create_publisher 1,
            Event.cout Cout.creating_reliability, Event.cout Cout.creating_datawriter,
            Event.create_datawriter 3 (some 2), Event.cout Cout.datawriter_created])
    ∧ (after_init 3 mw_ok (set_size 8 construct)).hello_.index = 0
    ∧ (after_init 3 mw_ok (set_size 8 construct)).listener_.matched_ = 0
    ∧ ∃ s1 tr, run 3 (List.replicate (0 + 3) ok_tick)
          (notified first_match (after_init 3 mw_ok (set_size 8 construct)))
        = Except.ok (3, s1, tr)
      ∧ (writes tr).length = 3 ∧ ok_writes tr = 3
      ∧ (writes tr).map HelloWorld.index = [1, 2, 3] :=
  ⟨rfl, run_three_end_to_end 8 3 0 mw_ok _ _ rfl⟩

end HelloWorldPublisher
